import Mathlib

/-!
A shallow embedding of the TPU client core (LeaderTpuCache, RecentLeaderSlots,
TpuClient, LeaderTpuService) of this repository, together with theorems
settling the specification claims about it.

Modelling conventions:
* JS numbers holding slot values and timestamps are modelled as `Int`
  (all arithmetic in the embedded code stays integral except where noted).
* A JS `Map<string, string | null>` lookup returns `undefined` for a missing
  key and `null` for a stored null: we model the contact map as a function
  `String → Option (Option String)` where `none` is `undefined` and
  `some none` is `null`.
* A JS function that may return `undefined` instead of a number is modelled
  with result `Option Int`; a function that may additionally throw is
  modelled with result `Option (Option Int)` (`none` = throws,
  `some none` = returns `undefined`, `some (some v)` = returns `v`).
* A promise that may never settle is modelled as `Option` of its resolved
  value, `none` meaning the promise never resolves.
-/

/-- `MAX_SLOT_SKIP_DISTANCE` from the source. -/
def MAX_SLOT_SKIP_DISTANCE : Int := 48

/-- `DEFAULT_FANOUT_SLOTS` from the source. -/
def DEFAULT_FANOUT_SLOTS : Int := 12

/-- `MAX_FANOUT_SLOTS` from the source. -/
def MAX_FANOUT_SLOTS : Int := 100

/-- The mutable fields of `LeaderTpuCache`.  `last_epoch_info_slot` is
declared in the source (`last_epoch_info_slot!: number`) but, as we shall
see, is never assigned before first use, so it is modelled as
`Option Int` with `none` standing for the JS `undefined`. -/
structure LeaderTpuCacheState where
  first_slot : Int
  slots_in_epoch : Int
  last_epoch_info_slot : Option Int
  leaders : List String
  leaderTpuMap : String → Option (Option String)

namespace LeaderTpuCache

/-- `LeaderTpuCache.load`: the constructor stores `startSlot` in
`first_slot`; `load` then fills `slots_in_epoch` from the epoch-info query,
`leaders` from `fetchSlotLeaders` and `leaderTpuMap` from
`fetchClusterTpuSockets`.  No statement of `load` (or of the constructor)
writes `last_epoch_info_slot`, so after a successful load that field still
holds the JS `undefined`, i.e. `none`. -/
def load (startSlot : Int) (slotsInEpoch : Int) (fetchedLeaders : List String)
    (fetchedMap : String → Option (Option String)) : LeaderTpuCacheState :=
  { first_slot := startSlot
    slots_in_epoch := slotsInEpoch
    last_epoch_info_slot := none
    leaders := fetchedLeaders
    leaderTpuMap := fetchedMap }

/-- `lastSlot()`: `this.first_slot + this.leaders.length - 1`. -/
def lastSlot (c : LeaderTpuCacheState) : Int :=
  c.first_slot + c.leaders.length - 1

/-- `getSlotLeader(slot)`: when `slot >= first_slot` the source indexes
`this.leaders[slot - first_slot]` (which is the JS `undefined`, outer
`none`, when the index is past the end), otherwise it returns `null`
(`some none`). -/
def getSlotLeader (c : LeaderTpuCacheState) (slot : Int) : Option (Option String) :=
  if c.first_slot ≤ slot then
    (c.leaders[(slot - c.first_slot).toNat]?).map some
  else
    some none

/-- The socket contributed by one leader: present only when the contact map
holds a non-null entry for it (`tpu_socket !== undefined && tpu_socket !== null`). -/
def socketOf (m : String → Option (Option String)) (l : String) : Option String :=
  match m l with
  | some (some s) => some s
  | _ => none

/-- The body of the `forEach` in `getLeaderSockets`, iterated over the whole
`leaders` array: `seen` is the `leaderSet`, `acc` the `leaderSockets` array.
A leader whose map entry is non-null and who is not yet in `leaderSet` is
added to the set and its socket pushed; otherwise the entry is skipped
(missing/null entries are only logged). -/
def goSockets (m : String → Option (Option String)) :
    List String → List String → List String → List String
  | [], _, acc => acc
  | l :: ls, seen, acc =>
    match m l with
    | some (some s) =>
      if l ∈ seen then goSockets m ls seen acc
      else goSockets m ls (l :: seen) (acc ++ [s])
    | _ => goSockets m ls seen acc

/-- `getLeaderSockets(fanout_slots)`: the executor runs the whole `forEach`
synchronously, incrementing `checkedSlots` once per leader and calling
`resolve(leaderSockets)` at the moment `checkedSlots === fanout_slots`.
Hence the promise settles exactly when `1 ≤ fanout_slots ≤ leaders.length`.
`resolve` captures a reference to the `leaderSockets` array, which the
remainder of the `forEach` keeps appending to; since promise reactions run
only after the executor returns, every consumer observes the array after
ALL leaders have been processed.  The resolved value is therefore the fold
over the entire `leaders` array, independent of `fanout_slots`. -/
def getLeaderSockets (c : LeaderTpuCacheState) (fanout_slots : Nat) :
    Option (List String) :=
  if 1 ≤ fanout_slots ∧ fanout_slots ≤ c.leaders.length then
    some (goSockets c.leaderTpuMap c.leaders [] [])
  else
    none

end LeaderTpuCache

/-- First-occurrence deduplication with an accumulator of already-seen
elements: the reference description of "deduplicate preserving first-seen
order" against which the fold in `getLeaderSockets` is proved. -/
def firstDedupAux (seen : List String) : List String → List String
  | [] => []
  | a :: l =>
    if a ∈ seen then firstDedupAux seen l
    else a :: firstDedupAux (a :: seen) l

namespace RecentLeaderSlots

/-- The constructor: `new Denque()` followed by `push(current_slot)`. -/
def init (current_slot : Int) : List Int := [current_slot]

/-- The `while (this.recent_slots.length > 12) { this.recent_slots.pop(); }`
loop of `recordSlot`.  Denque's `pop()` removes the element at the BACK of
the queue (its `shift()` would remove the front), so each iteration drops
the last element.  Each iteration shortens the list by one, so running the
loop body at most `length` many times is exhaustive; the fuel argument is
initialised accordingly. -/
def popBackLoop : Nat → List Int → List Int
  | 0, w => w
  | fuel + 1, w => if w.length > 12 then popBackLoop fuel w.dropLast else w

/-- `recordSlot(current_slot)`: push to the back, then run the trimming
`while` loop. -/
def recordSlot (w : List Int) (current_slot : Int) : List Int :=
  popBackLoop (w ++ [current_slot]).length (w ++ [current_slot])

/-- A sequence of `recordSlot` calls. -/
def recordAll (w : List Int) (slots : List Int) : List Int :=
  slots.foldl recordSlot w

/-- `estimatedCurrentSlot()`.  Result convention: `none` = the
`recent slots is empty` error is thrown; `some none` = the function
returns the JS `undefined`; `some (some v)` = it returns the number `v`.

The source computes `median_index = max_index / 2` with JS number division.
When `max_index` is even this is the integer `max_index / 2` and
`sortedRecentSlots[median_index]` is a real entry.  When `max_index` is
odd, `median_index` is fractional, the indexing yields `undefined`,
`expected_current_slot` and `max_reasonable_current_slot` become `NaN`,
every comparison `slot <= NaN` is false, and `find` returns `undefined`. -/
def estimatedCurrentSlot (recent_slots : List Int) : Option (Option Int) :=
  if recent_slots.isEmpty then
    none
  else
    let sortedRecentSlots := recent_slots.insertionSort (· ≤ ·)
    let max_index := sortedRecentSlots.length - 1
    if max_index % 2 = 0 then
      match sortedRecentSlots[max_index / 2]? with
      | some median_recent_slot =>
        let expected_current_slot :=
          median_recent_slot + ((max_index - max_index / 2 : Nat) : Int)
        let max_reasonable_current_slot :=
          expected_current_slot + MAX_SLOT_SKIP_DISTANCE
        some (sortedRecentSlots.reverse.find?
          (fun slot => decide (slot ≤ max_reasonable_current_slot)))
      | none => some none
    else
      some none

end RecentLeaderSlots

/-- The shape of the first argument of `sendTransaction`: a versioned
transaction carries a `version` field (so `'version' in transaction` is
true); a legacy transaction may or may not carry durable-nonce info. -/
inductive ModelTx where
  | versioned : ModelTx
  | legacy (nonceInfo : Bool) : ModelTx
deriving DecidableEq

/-- The shape of the `signersOrOptions` argument of `sendTransaction`:
absent (`undefined`), an array of signers, or a `SendOptions` object
(truthy but not an array). -/
inductive SignersOrOptions where
  | absent : SignersOrOptions
  | signerList (count : Nat) : SignersOrOptions
  | options : SignersOrOptions
deriving DecidableEq

/-- The network activity `sendTransaction` can perform, in order. -/
inductive NetAction where
  | getRecentBlockhash : NetAction
  | sendDatagrams : NetAction
deriving DecidableEq

namespace TpuClient

/-- The constructor clamps the configured fanout into `[1, MAX_FANOUT_SLOTS]`:
`Math.max(Math.min(config.fanoutSlots, MAX_FANOUT_SLOTS), 1)`. -/
def clampFanoutSlots (fanoutSlots : Int) : Int :=
  max (min fanoutSlots MAX_FANOUT_SLOTS) 1

/-- `sendTransaction(transaction, signersOrOptions, options)`, modelled with
its result and the ordered list of network actions it performs.  A thrown
`Invalid arguments` error is `.error` paired with the actions performed
before the throw.  For a versioned transaction a signer array throws;
otherwise the transaction is serialized and handed to `sendRawTransaction`
(datagram sends).  For a legacy transaction a missing or non-array
`signersOrOptions` throws; with signers, a durable nonce skips the
blockhash fetch, otherwise `getRecentBlockhash` is awaited before signing
and the raw send. -/
def sendTransaction (transaction : ModelTx) (signersOrOptions : SignersOrOptions) :
    Except String Unit × List NetAction :=
  match transaction with
  | .versioned =>
    match signersOrOptions with
    | .signerList _ => (.error "Invalid arguments", [])
    | _ => (.ok (), [NetAction.sendDatagrams])
  | .legacy nonceInfo =>
    match signersOrOptions with
    | .signerList _ =>
      if nonceInfo then (.ok (), [NetAction.sendDatagrams])
      else (.ok (), [NetAction.getRecentBlockhash, NetAction.sendDatagrams])
    | _ => (.error "Invalid arguments", [])

end TpuClient

namespace LeaderTpuService

/-- The guard at step 3 of `run()`:
`estimatedCurrentSlot >= this.leaderTpuCache.last_epoch_info_slot - this.leaderTpuCache.slots_in_epoch`.
When `last_epoch_info_slot` is still the JS `undefined`, the subtraction
yields `NaN` and the `>=` comparison is false. -/
def epochRefreshCond (est : Int) (last_epoch_info_slot : Option Int)
    (slots_in_epoch : Int) : Bool :=
  match last_epoch_info_slot with
  | none => false
  | some l => decide (est ≥ l - slots_in_epoch)

/-- The epoch-info branch of one `run()` iteration: when the guard holds,
the epoch-info fetch is attempted (the returned flag records the attempt);
on success `slots_in_epoch` is replaced and `last_epoch_info_slot` is set
to the estimate; on failure only a warning is logged. -/
def epochRefreshStep (c : LeaderTpuCacheState) (est : Int)
    (fetched : Except String Int) : LeaderTpuCacheState × Bool :=
  if epochRefreshCond est c.last_epoch_info_slot c.slots_in_epoch then
    match fetched with
    | .ok slotsInEpoch =>
      ({ c with slots_in_epoch := slotsInEpoch, last_epoch_info_slot := some est }, true)
    | .error _ => (c, true)
  else
    (c, false)

/-- Iterating the epoch-info branch over a whole run: each iteration
supplies the slot estimate it computed and the outcome the epoch-info
fetch would have had; the result lists, per iteration, whether the fetch
was attempted at all. -/
def epochRefreshRun (c : LeaderTpuCacheState) :
    List (Int × Except String Int) → List Bool
  | [] => []
  | (est, fetched) :: rest =>
    let step := epochRefreshStep c est fetched
    step.2 :: epochRefreshRun step.1 rest

/-- The schedule branch of one `run()` iteration (step 4): when the
estimate is within `MAX_FANOUT_SLOTS` of `lastSlot()`, `fetchSlotLeaders`
is attempted; on success `first_slot` and `leaders` are replaced, on
failure a warning is logged and the state is left as it was. -/
def scheduleRefreshStep (c : LeaderTpuCacheState) (est : Int)
    (fetched : Except String (List String)) : LeaderTpuCacheState :=
  if LeaderTpuCache.lastSlot c - MAX_FANOUT_SLOTS ≤ est then
    match fetched with
    | .ok slot_leaders => { c with first_slot := est, leaders := slot_leaders }
    | .error _ => c
  else
    c

/-- `CLUSTER_TIMEOUT_MS`: the `1000 * 5 * 60` threshold in `run()`. -/
def CLUSTER_TIMEOUT_MS : Int := 1000 * 5 * 60

/-- The guard at step 1 of `run()`:
`Date.now() - last_cluster_refresh > 1000 * 5 * 60`, where
`last_cluster_refresh` is the `const` captured when THIS `run()` call
started (not when the contact map was last fetched) and the comparison
runs when the timeout callback fires. -/
def clusterRefreshCond (fire_time last_cluster_refresh : Int) : Bool :=
  decide (fire_time - last_cluster_refresh > CLUSTER_TIMEOUT_MS)

/-- The time at which the `n`-th recursive `run()` call begins, for a loop
started at `t0`, under exact timers: every iteration sets `sleep_ms` back
to `1000` before scheduling, so iteration `n` starts `1000·n` after `t0`,
and its timeout callback fires `1000` later. -/
def runCallTime (t0 : Int) (n : Nat) : Int := t0 + 1000 * n

/-- Whether the contact-map refetch fires in iteration `n` of a loop
started at `t0`: the guard compares the callback's fire time with the
iteration's own start time. -/
def clusterRefreshFires (t0 : Int) (n : Nat) : Bool :=
  clusterRefreshCond (runCallTime t0 n + 1000) (runCallTime t0 n)

end LeaderTpuService

/-- The contact map of the worked example in the specification:
`{A: "1.1.1.1:100", B: "2.2.2.2:200"}`. -/
def exampleMap : String → Option (Option String) := fun l =>
  if l = "A" then some (some "1.1.1.1:100")
  else if l = "B" then some (some "2.2.2.2:200")
  else none

/-- A cache whose schedule is the spec's `[A, A, B]` example. -/
def exampleCache : LeaderTpuCacheState :=
  LeaderTpuCache.load 0 432000 ["A", "A", "B"] exampleMap

/-- A contact map under which two distinct leaders publish the same
socket address. -/
def sharedSocketMap : String → Option (Option String) := fun l =>
  if l = "A" then some (some "9.9.9.9:1")
  else if l = "B" then some (some "9.9.9.9:1")
  else none

/-- A cache with two distinct leaders sharing one socket address. -/
def sharedSocketCache : LeaderTpuCacheState :=
  LeaderTpuCache.load 0 432000 ["A", "B"] sharedSocketMap

/-- A small concrete cache used to instantiate slot-lookup theorems:
`first_slot = 5`, schedule `[A, B, C]`. -/
def slotWitnessCache : LeaderTpuCacheState :=
  LeaderTpuCache.load 5 432000 ["A", "B", "C"] exampleMap

/-! ## Helper lemmas -/

/-- The socket-collecting fold of `getLeaderSockets` computes, over any
suffix of the schedule, exactly the first-seen-order deduplication of the
remaining leaders with unreachable leaders filtered out, provided the two
seen-accumulators agree on every leader that has a reachable socket
(leaders without one never enter the fold's `leaderSet`, so only reachable
leaders' membership matters). -/
lemma goSockets_eq_firstDedup (m : String → Option (Option String)) :
    ∀ (ls seenL seenR acc : List String),
      (∀ x s, m x = some (some s) → (x ∈ seenL ↔ x ∈ seenR)) →
      LeaderTpuCache.goSockets m ls seenL acc
        = acc ++ (firstDedupAux seenR ls).filterMap (LeaderTpuCache.socketOf m) := by
  intro ls
  induction ls with
  | nil =>
    intro seenL seenR acc _
    simp [LeaderTpuCache.goSockets, firstDedupAux]
  | cons l ls ih =>
    intro seenL seenR acc h
    cases hm : m l with
    | none =>
      have hsock : LeaderTpuCache.socketOf m l = none := by
        simp [LeaderTpuCache.socketOf, hm]
      by_cases hR : l ∈ seenR
      · simp only [LeaderTpuCache.goSockets, hm, firstDedupAux, if_pos hR]
        exact ih seenL seenR acc h
      · simp only [LeaderTpuCache.goSockets, hm, firstDedupAux, if_neg hR,
          List.filterMap_cons, hsock]
        refine ih seenL (l :: seenR) acc ?_
        intro x s hx
        have hne : x ≠ l := by
          intro he; subst he; rw [hx] at hm; exact Option.noConfusion hm
        simp only [List.mem_cons, hne, false_or]
        exact h x s hx
    | some o =>
      cases o with
      | none =>
        have hsock : LeaderTpuCache.socketOf m l = none := by
          simp [LeaderTpuCache.socketOf, hm]
        by_cases hR : l ∈ seenR
        · simp only [LeaderTpuCache.goSockets, hm, firstDedupAux, if_pos hR]
          exact ih seenL seenR acc h
        · simp only [LeaderTpuCache.goSockets, hm, firstDedupAux, if_neg hR,
            List.filterMap_cons, hsock]
          refine ih seenL (l :: seenR) acc ?_
          intro x s hx
          have hne : x ≠ l := by
            intro he; subst he; rw [hx] at hm
            exact Option.noConfusion (Option.some.inj hm)
          simp only [List.mem_cons, hne, false_or]
          exact h x s hx
      | some s =>
        have hsock : LeaderTpuCache.socketOf m l = some s := by
          simp [LeaderTpuCache.socketOf, hm]
        have hmem := h l s hm
        by_cases hL : l ∈ seenL
        · have hR : l ∈ seenR := hmem.mp hL
          simp only [LeaderTpuCache.goSockets, hm, if_pos hL, firstDedupAux, if_pos hR]
          exact ih seenL seenR acc h
        · have hR : l ∉ seenR := fun hc => hL (hmem.mpr hc)
          simp only [LeaderTpuCache.goSockets, hm, if_neg hL, firstDedupAux, if_neg hR,
            List.filterMap_cons, hsock]
          rw [ih (l :: seenL) (l :: seenR) (acc ++ [s]) ?_]
          · simp
          · intro x s' hx
            simp only [List.mem_cons]
            exact or_congr Iff.rfl (h x s' hx)

/-- `epochRefreshRun` never attempts an epoch-info fetch from a state whose
`last_epoch_info_slot` is still unset: the guard compares against `NaN`,
is false, and leaves the field unset for the next iteration as well. -/
lemma epochRefreshRun_of_unset (iters : List (Int × Except String Int)) :
    ∀ (c : LeaderTpuCacheState), c.last_epoch_info_slot = none →
      LeaderTpuService.epochRefreshRun c iters = List.replicate iters.length false := by
  induction iters with
  | nil => intro c _; rfl
  | cons p rest ih =>
    intro c h
    obtain ⟨est, fetched⟩ := p
    have hcond : LeaderTpuService.epochRefreshCond est c.last_epoch_info_slot
        c.slots_in_epoch = false := by
      rw [h]; rfl
    simp only [LeaderTpuService.epochRefreshRun, LeaderTpuService.epochRefreshStep,
      hcond, Bool.false_eq_true, if_false, List.length_cons, List.replicate_succ]
    rw [ih c h]

/-! ## Claim theorems -/

/-- C1 (counterexample): with a schedule of two distinct leaders `A` and
`B` that publish the same socket address, `getLeaderSockets(1)` resolves
with `["9.9.9.9:1", "9.9.9.9:1"]` — a list of length 2 for fanout width 1
that also contains a duplicate socket address.  This refutes the claim's
"walks only the first k entries", "never contains duplicate socket
addresses" and "never has length greater than k" at one concrete input. -/
theorem getLeaderSockets_exceeds_fanout_and_repeats_address :
    LeaderTpuCache.getLeaderSockets sharedSocketCache 1
      = some ["9.9.9.9:1", "9.9.9.9:1"] := by decide

/-- C1 (amended): for every cached schedule, contact map and fanout width
`k` with `1 ≤ k ≤ length(leaders)`, the promise returned by
`getLeaderSockets(k)` settles, and every consumer observes the
deduplicated-by-leader-identity, first-seen-order socket list of the
ENTIRE leader sequence (the `forEach` keeps appending to the resolved
array after `resolve` fires at the `k`-th entry), with null or missing
contact-map entries skipped without error; in particular for leaders
`[A, A, B]` with sockets `{A: "1.1.1.1:100", B: "2.2.2.2:200"}`,
`leaderSockets(3)` resolves to exactly `["1.1.1.1:100", "2.2.2.2:200"]`. -/
theorem getLeaderSockets_spec_amended :
    (∀ (c : LeaderTpuCacheState) (k : Nat), 1 ≤ k → k ≤ c.leaders.length →
      LeaderTpuCache.getLeaderSockets c k
        = some ((firstDedupAux [] c.leaders).filterMap
            (LeaderTpuCache.socketOf c.leaderTpuMap)))
    ∧ LeaderTpuCache.getLeaderSockets exampleCache 3
        = some ["1.1.1.1:100", "2.2.2.2:200"] := by
  constructor
  · intro c k h1 h2
    unfold LeaderTpuCache.getLeaderSockets
    rw [if_pos ⟨h1, h2⟩,
      goSockets_eq_firstDedup c.leaderTpuMap c.leaders [] [] [] (fun _ _ _ => Iff.rfl)]
    rfl
  · decide

/-- C1 (witness): the amended theorem applied to the shared-socket cache
at fanout width 2. -/
theorem getLeaderSockets_spec_amended_witness :
    LeaderTpuCache.getLeaderSockets sharedSocketCache 2
      = some ((firstDedupAux [] sharedSocketCache.leaders).filterMap
          (LeaderTpuCache.socketOf sharedSocketCache.leaderTpuMap)) :=
  getLeaderSockets_spec_amended.1 sharedSocketCache 2 (by decide) (by decide)

/-- C2: on the two-entry window `[100, 101]` (recorded in that order),
`estimatedCurrentSlot` returns the JS `undefined` rather than a slot:
`max_index = 1` is odd, so `median_index = 0.5`, the indexing yields
`undefined`, the bound becomes `NaN`, and `find` matches nothing.  The
claim (and the spec's integer-division formula) requires the result `101`
here, a recorded slot. -/
theorem estimatedCurrentSlot_even_window_undefined :
    RecentLeaderSlots.recordAll (RecentLeaderSlots.init 100) [101] = [100, 101]
    ∧ RecentLeaderSlots.estimatedCurrentSlot
        (RecentLeaderSlots.recordAll (RecentLeaderSlots.init 100) [101])
      = some none := by decide

/-- C3: recording slots `1..12` after an initial slot `0` leaves the
window `[0, 1, ..., 11]`: the trimming loop `pop()`s from the BACK of the
deque, so the 13th recorded slot (`12`, the newest) is evicted and the
oldest entry `0` is retained — the opposite of the claimed oldest-first
eviction, which would leave `[1, ..., 12]`. -/
theorem recordSlot_evicts_newest_not_oldest :
    RecentLeaderSlots.recordAll (RecentLeaderSlots.init 0)
        [1, 2, 3, 4, 5, 6, 7, 8, 9, 10, 11, 12]
      = [0, 1, 2, 3, 4, 5, 6, 7, 8, 9, 10, 11] := by decide

/-- C4: a refresh-loop iteration whose leader-schedule fetch fails leaves
`first_slot` and `leaders` exactly as they were before the attempt,
whatever the cache state and slot estimate. -/
theorem scheduleRefresh_failure_preserves_state
    (c : LeaderTpuCacheState) (est : Int) (msg : String) :
    (LeaderTpuService.scheduleRefreshStep c est (.error msg)).first_slot = c.first_slot
    ∧ (LeaderTpuService.scheduleRefreshStep c est (.error msg)).leaders = c.leaders := by
  unfold LeaderTpuService.scheduleRefreshStep
  split <;> exact ⟨rfl, rfl⟩

/-- C5: the epoch-info guard is false whenever `last_epoch_info_slot` is
unset, and since `LeaderTpuCache.load` never sets it, every iteration of
every run started from a freshly loaded cache skips the epoch-info
refetch: the refetch the claim describes never happens. -/
theorem epochInfo_never_refetched :
    (∀ (est slots_in_epoch : Int),
      LeaderTpuService.epochRefreshCond est none slots_in_epoch = false)
    ∧ (∀ (startSlot slotsInEpoch : Int) (fetchedLeaders : List String)
        (fetchedMap : String → Option (Option String))
        (iters : List (Int × Except String Int)),
      LeaderTpuService.epochRefreshRun
          (LeaderTpuCache.load startSlot slotsInEpoch fetchedLeaders fetchedMap) iters
        = List.replicate iters.length false) := by
  refine ⟨fun _ _ => rfl, fun _ _ _ _ iters => epochRefreshRun_of_unset iters _ rfl⟩

/-- C6: the contact-map guard compares the timeout's fire time with the
start time of the SAME iteration (the `const last_cluster_refresh` is
re-captured by every recursive `run()` call), so with the 1-second
rescheduling delay it is false in every iteration of every run — even in
iterations (such as iteration 400 of a run started at time 0) where far
more than 5 minutes have passed since the contact map was last fetched at
load time. -/
theorem clusterRefresh_never_fires :
    (∀ (t0 : Int) (n : Nat), LeaderTpuService.clusterRefreshFires t0 n = false)
    ∧ (LeaderTpuService.runCallTime 0 400 + 1000 - 0 > LeaderTpuService.CLUSTER_TIMEOUT_MS
        ∧ LeaderTpuService.clusterRefreshFires 0 400 = false) := by
  constructor
  · intro t0 n
    simp only [LeaderTpuService.clusterRefreshFires, LeaderTpuService.clusterRefreshCond,
      LeaderTpuService.runCallTime, LeaderTpuService.CLUSTER_TIMEOUT_MS,
      decide_eq_false_iff_not, not_lt]
    omega
  · exact ⟨by decide, by decide⟩

/-- C7: `sendTransaction` throws `Invalid arguments` — performing no
network activity at all, neither a blockhash fetch nor a datagram send —
whenever a versioned transaction is passed together with a signer array,
or a legacy transaction is passed without one (including when a
`SendOptions` object stands in its place). -/
theorem sendTransaction_invalid_args_no_network :
    (∀ (count : Nat),
      TpuClient.sendTransaction .versioned (.signerList count)
        = (.error "Invalid arguments", []))
    ∧ (∀ (nonceInfo : Bool),
      TpuClient.sendTransaction (.legacy nonceInfo) .absent
          = (.error "Invalid arguments", [])
        ∧ TpuClient.sendTransaction (.legacy nonceInfo) .options
          = (.error "Invalid arguments", [])) :=
  ⟨fun _ => rfl, fun _ => ⟨rfl, rfl⟩⟩

/-- C8: for every cache state, `lastSlot()` is
`first_slot + length(leaders) - 1`; `getSlotLeader` returns `null` for
every slot before `first_slot` and returns the schedule entry
`leaders[slot - first_slot]` for every slot between `first_slot` and
`lastSlot()` inclusive. -/
theorem lastSlot_getSlotLeader_spec (c : LeaderTpuCacheState) (slot : Int) :
    LeaderTpuCache.lastSlot c = c.first_slot + c.leaders.length - 1
    ∧ (slot < c.first_slot → LeaderTpuCache.getSlotLeader c slot = some none)
    ∧ (c.first_slot ≤ slot → slot ≤ LeaderTpuCache.lastSlot c →
        ∃ leader, c.leaders[(slot - c.first_slot).toNat]? = some leader
          ∧ LeaderTpuCache.getSlotLeader c slot = some (some leader)) := by
  refine ⟨rfl, ?_, ?_⟩
  · intro h
    unfold LeaderTpuCache.getSlotLeader
    rw [if_neg (by omega)]
  · intro h1 h2
    have hlen : (slot - c.first_slot).toNat < c.leaders.length := by
      unfold LeaderTpuCache.lastSlot at h2; omega
    refine ⟨c.leaders[(slot - c.first_slot).toNat], List.getElem?_eq_getElem hlen, ?_⟩
    unfold LeaderTpuCache.getSlotLeader
    rw [if_pos h1, List.getElem?_eq_getElem hlen]
    rfl

/-- C8 (witness): the slot-lookup theorem applied to a concrete cache with
`first_slot = 5` and schedule `[A, B, C]`, at slots 4 (before the window,
`null`) and 6 (inside the window, leader `B`). -/
theorem lastSlot_getSlotLeader_spec_witness :
    LeaderTpuCache.getSlotLeader slotWitnessCache 4 = some none
    ∧ LeaderTpuCache.getSlotLeader slotWitnessCache 6 = some (some "B") := by
  constructor
  · exact (lastSlot_getSlotLeader_spec slotWitnessCache 4).2.1 (by decide)
  · obtain ⟨leader, hl, hg⟩ :=
      (lastSlot_getSlotLeader_spec slotWitnessCache 6).2.2 (by decide) (by decide)
    have hB : slotWitnessCache.leaders[((6 : Int) - slotWitnessCache.first_slot).toNat]?
        = some "B" := by decide
    rw [hl] at hB
    rw [Option.some.inj hB] at hg
    exact hg

/-- C9: from the initial slot 100 and recorded slots 102, 98, 101, 99 the
window is `[100, 102, 98, 101, 99]`, its ascending sort is
`[98, 99, 100, 101, 102]`, and `estimatedCurrentSlot()` returns exactly
102 (maxIndex 4 is even, so medianIndex 2, median 100, expected 102,
upper bound 150, and 102 is the largest entry ≤ 150). -/
theorem estimatedCurrentSlot_example :
    RecentLeaderSlots.recordAll (RecentLeaderSlots.init 100) [102, 98, 101, 99]
      = [100, 102, 98, 101, 99]
    ∧ ([100, 102, 98, 101, 99] : List Int).insertionSort (· ≤ ·)
      = [98, 99, 100, 101, 102]
    ∧ RecentLeaderSlots.estimatedCurrentSlot
        (RecentLeaderSlots.recordAll (RecentLeaderSlots.init 100) [102, 98, 101, 99])
      = some (some 102) := by decide

/-- C10: `getLeaderSockets(fanout_slots)` never settles when
`fanout_slots` exceeds the length of the cached schedule: `checkedSlots`
only reaches values up to `leaders.length`, so `resolve` is never
called. -/
theorem getLeaderSockets_requires_fanout_le_schedule
    (c : LeaderTpuCacheState) (fanout_slots : Nat)
    (h : c.leaders.length < fanout_slots) :
    LeaderTpuCache.getLeaderSockets c fanout_slots = none := by
  unfold LeaderTpuCache.getLeaderSockets
  rw [if_neg]
  rintro ⟨-, h2⟩
  omega

/-- C10 (witness): requesting fanout width 4 from the three-entry example
schedule yields a promise that never settles. -/
theorem getLeaderSockets_requires_fanout_le_schedule_witness :
    LeaderTpuCache.getLeaderSockets exampleCache 4 = none :=
  getLeaderSockets_requires_fanout_le_schedule exampleCache 4 (by decide)
